import Mathlib

/-!
Shallow embedding of the Ember Mug BLE session manager
(`custom_components/ember_mug/mug.py` and `services.py`).

Python floats are modelled as exact rationals (`ℚ`); Python `round`
is round-half-to-even; Python `int()` truncates toward zero; byte
strings are `List Nat` with each entry a byte value.  BLE transport
failures (`BleakError`) and other Python runtime errors are explicit
values.  Awaited `asyncio.sleep` calls, callback invocations and task
creation are recorded as events so that timing and signalling
behaviour can be stated.
-/

namespace EmberMug

/-- `int.from_bytes(bytes, byteorder="little", signed=False)`. -/
def bytesToNatLE : List Nat → Nat
  | [] => 0
  | b :: rest => b + 256 * bytesToNatLE rest

/-- Python `round` to an integer: round half to even (banker's rounding). -/
def roundHalfEven (q : ℚ) : ℤ :=
  let f := ⌊q⌋
  let frac := q - (f : ℚ)
  if frac < 1/2 then f
  else if 1/2 < frac then f + 1
  else if f % 2 = 0 then f else f + 1

/-- Python `round(x, 2)` on an exact rational. -/
def round2 (q : ℚ) : ℚ := ((roundHalfEven (q * 100) : ℤ) : ℚ) / 100

/-- Python `int()` applied to a rational: truncation toward zero. -/
def pyInt (q : ℚ) : ℤ := if 0 ≤ q then ⌊q⌋ else ⌈q⌉

/-- `EmberMug._temp_from_bytes`: little-endian raw value scaled by `0.01`,
converted to Fahrenheit when `use_metric` is false, rounded to 2 decimals. -/
def temp_from_bytes (use_metric : Bool) (temp_bytes : List Nat) : ℚ :=
  let temp : ℚ := (bytesToNatLE temp_bytes : ℚ) * (1/100)
  let temp := if use_metric = false then temp * 9 / 5 + 32 else temp
  round2 temp

/-- Python `int.to_bytes(2, "little")`: two little-endian bytes, raising
`OverflowError` when the integer is negative or does not fit in 16 bits. -/
def toBytes2LE (n : ℤ) : Except String (List Nat) :=
  if 0 ≤ n ∧ n ≤ 65535 then .ok [n.toNat % 256, n.toNat / 256]
  else .error "OverflowError"

/-- `services.set_target_temp` payload construction:
`bytearray(int(temp / 0.01).to_bytes(2, "little"))`. -/
def set_target_temp (temp : ℚ) : Except String (List Nat) :=
  toBytes2LE (pyInt (temp / (1/100)))

/-- Python `f"{n:02x}"`: lowercase hex, zero-padded to width 2. -/
def hex02 (n : Nat) : String :=
  let ds := Nat.toDigits 16 n
  String.mk (List.replicate (2 - ds.length) '0' ++ ds)

/-- `EmberMug.colour`: `f"#{r:02x}{g:02x}{b:02x}"` after unpacking
`r, g, b = self.led_colour_rgb` (unpacking any other length raises). -/
def colour : List Nat → Option String
  | [r, g, b] => some ("#" ++ hex02 r ++ hex02 g ++ hex02 b)
  | _ => none

/-- Python exceptions relevant to the session code.  `bleakError` is the
transport error class that the code catches; the others are runtime errors
(tuple-unpacking `ValueError`, out-of-range `IndexError`) that no handler
in `mug.py` below the session loop catches. -/
inductive PyError
  | bleakError
  | valueError
  | indexError
deriving DecidableEq, Repr

/-- Result of one `client.read_gatt_char` call. -/
inductive ReadResult
  | ok (bytes : List Nat)
  | bleakErr
deriving DecidableEq, Repr

/-- The characteristic UUID constants used by `mug.py`. -/
inductive UUID
  | battery
  | current_temp
  | led_colour
  | state
  | target_temp
deriving DecidableEq, Repr

/-- Observable events of the session: awaited sleeps, a created-but-not-
awaited `asyncio.sleep` coroutine, the external update callback,
`start_notify` subscription attempts, applied status-change logs, and
`hass.async_create_task` task creation. -/
inductive Ev
  | evClientConnect
  | evClientPair
  | evSleep (secs : Nat)
  | evSleepNotAwaited (secs : Nat)
  | evCallback
  | evStartNotify
  | evLogStateChange (oldState : Option Nat) (newState : Nat)
  | evCreateTask
deriving DecidableEq, Repr

/-- Total awaited suspension time, in seconds, of a list of events. -/
def elapsedSeconds (evs : List Ev) : Nat :=
  (evs.map (fun e => match e with | .evSleep s => s | _ => 0)).sum

/-- The mutable attributes of `EmberMug` set in `__init__` and updated by
the session (fields that the claims concern). -/
structure MugState where
  state : Option Nat
  led_colour_rgb : List Nat
  current_temp : Option ℚ
  target_temp : Option ℚ
  battery : Option ℚ
  available : Bool
  use_metric : Bool
deriving DecidableEq, Repr

/-- `EmberMug.__init__` defaults: `state = None`, white LED, unknown
temperatures and battery, `available = False`. -/
def initState (use_metric : Bool) : MugState where
  state := none
  led_colour_rgb := [255, 255, 255]
  current_temp := none
  target_temp := none
  battery := none
  available := false
  use_metric := use_metric

/-- `EmberMug.update_battery`: read `BATTERY_UUID`, take byte 0 as a float
percentage, round to 2 decimals.  An empty payload raises `IndexError`. -/
def update_battery (st : MugState) (reads : UUID → ReadResult) :
    MugState × Option PyError :=
  match reads .battery with
  | .bleakErr => (st, some .bleakError)
  | .ok [] => (st, some .indexError)
  | .ok (b :: _) => ({ st with battery := some (round2 (b : ℚ)) }, none)

/-- `EmberMug.update_led_colour`: read `LED_COLOUR_UUID` and unpack
`r, g, b, _ = payload`; a payload of any length other than 4 raises
`ValueError`. -/
def update_led_colour (st : MugState) (reads : UUID → ReadResult) :
    MugState × Option PyError :=
  match reads .led_colour with
  | .bleakErr => (st, some .bleakError)
  | .ok [r, g, b, _] => ({ st with led_colour_rgb := [r, g, b] }, none)
  | .ok _ => (st, some .valueError)

/-- `EmberMug.update_target_temp`: read `TARGET_TEMP_UUID` and decode via
`_temp_from_bytes`. -/
def update_target_temp (st : MugState) (reads : UUID → ReadResult) :
    MugState × Option PyError :=
  match reads .target_temp with
  | .bleakErr => (st, some .bleakError)
  | .ok bytes =>
      ({ st with target_temp := some (temp_from_bytes st.use_metric bytes) }, none)

/-- `EmberMug.update_current_temp`: read `CURRENT_TEMP_UUID` and decode via
`_temp_from_bytes`. -/
def update_current_temp (st : MugState) (reads : UUID → ReadResult) :
    MugState × Option PyError :=
  match reads .current_temp with
  | .bleakErr => (st, some .bleakError)
  | .ok bytes =>
      ({ st with current_temp := some (temp_from_bytes st.use_metric bytes) }, none)

/-- The attribute names of `update_all`'s `update_attrs` list, in source
order. -/
inductive Attr
  | led_colour
  | current_temp
  | target_temp
  | battery
deriving DecidableEq, Repr

/-- `update_attrs = ["led_colour", "current_temp", "target_temp", "battery"]`. -/
def update_attrs : List Attr := [.led_colour, .current_temp, .target_temp, .battery]

/-- `getattr(self, f"update_{attr}")()` dispatch. -/
def updateAttr (a : Attr) (st : MugState) (reads : UUID → ReadResult) :
    MugState × Option PyError :=
  match a with
  | .led_colour => update_led_colour st reads
  | .current_temp => update_current_temp st reads
  | .target_temp => update_target_temp st reads
  | .battery => update_battery st reads

/-- The `for attr in update_attrs` loop: run the updates in order, stopping
at the first raised exception; mutations already applied are kept. -/
def runAttrs : List Attr → MugState → (UUID → ReadResult) → MugState × Option PyError
  | [], st, _ => (st, none)
  | a :: rest, st, reads =>
      match updateAttr a st reads with
      | (st', none) => runAttrs rest st' reads
      | (st', some e) => (st', some e)

/-- Outcome of one connect+pair attempt inside `connect`'s for-loop:
`client.connect()` raises `BleakError`, `client.pair()` raises
`BleakError`, or both succeed. -/
inductive Outcome
  | connectFail
  | pairFail
  | success
deriving DecidableEq, Repr

/-- One iteration of `for i in range(1, 10 + 1)` in `EmberMug.connect`:
the events it emits and whether it set `connected = True`.  On failure the
handler runs `asyncio.sleep(30)` WITHOUT `await`, which only creates a
coroutine object — no suspension happens, recorded as `evSleepNotAwaited`.
On success the body logs and `continue`s. -/
def connectIter : Outcome → List Ev × Bool
  | .connectFail => ([.evClientConnect, .evSleepNotAwaited 30], false)
  | .pairFail => ([.evClientConnect, .evClientPair, .evSleepNotAwaited 30], false)
  | .success => ([.evClientConnect, .evClientPair], true)

/-- The outcomes of the 10 attempts of one burst, for a given stream of
attempt outcomes. -/
def burstOutcomes (attempt : Nat → Outcome) : List Outcome :=
  (List.range 10).map attempt

/-- Events of one full 10-attempt burst of `EmberMug.connect`. -/
def connectBurstEvents (attempt : Nat → Outcome) : List Ev :=
  ((burstOutcomes attempt).map (fun o => (connectIter o).1)).flatten

/-- The `connected` flag after the burst: set once any attempt succeeded,
never cleared (the loop runs all 10 iterations regardless). -/
def connectBurstConnected (attempt : Nat → Outcome) : Bool :=
  decide (Outcome.success ∈ burstOutcomes attempt)

/-- `EmberMug.connect`, with `fuel` bounding the number of 10-attempt
bursts (the source recursion is unbounded; `none` means the fuel ran out
with every burst still failing).  After a failed burst the code invokes
the update callback, awaits `asyncio.sleep(5 * 60)` and recurses; when the
recursive call returns, the frame falls through to the `start_notify`
block, so every frame appends its own subscription attempt. -/
def connectRounds : Nat → (Nat → Outcome) → Option (List Ev)
  | 0, _ => none
  | fuel + 1, attempt =>
      let evs := connectBurstEvents attempt
      if connectBurstConnected attempt then
        some (evs ++ [.evStartNotify])
      else
        match connectRounds fuel (fun n => attempt (n + 10)) with
        | none => none
        | some rest => some (evs ++ [.evCallback, .evSleep 300] ++ rest ++ [.evStartNotify])

/-- `EmberMug.state_notify(sender, data)`: `new_state = data[0]` (an empty
payload raises `IndexError`, modelled as `none`); the new state is stored
only when `new_state not in [1, self.state]`, and every applied change is
logged. -/
def state_notify (st : Option Nat) (data : List Nat) : Option (Option Nat × List Ev) :=
  match data with
  | [] => none
  | b :: _ =>
      if b ≠ 1 ∧ some b ≠ st then some (some b, [.evLogStateChange st b])
      else some (st, [])

/-- Environment of one pass over the client: current `is_connected` answer,
the stream of connect-attempt outcomes and burst fuel used if `connect` is
invoked, and the result of each characteristic read. -/
structure SessionEnv where
  is_connected : Bool
  attempt : Nat → Outcome
  connectFuel : Nat
  reads : UUID → ReadResult

/-- Result of `update_all`: the returned `success` flag, or an exception
that escaped it (`except BleakError` is the only handler). -/
inductive UpdateAllResult
  | ret (success : Bool)
  | raised (e : PyError)
deriving DecidableEq, Repr

/-- `EmberMug.update_all`: ensure connected (possibly running the
unbounded `connect`, hence the `Option`), then run the four updates in
order inside `try`; `BleakError` yields `success = False` with partial
updates kept, any other exception propagates. -/
def update_all (st : MugState) (env : SessionEnv) :
    Option (MugState × List Ev × UpdateAllResult) :=
  let pre : Option (List Ev) :=
    if env.is_connected then some []
    else connectRounds env.connectFuel env.attempt
  match pre with
  | none => none
  | some evs =>
      match runAttrs update_attrs st env.reads with
      | (st', none) => some (st', evs, .ret true)
      | (st', some .bleakError) => some (st', evs, .ret false)
      | (st', some e) => some (st', evs, .raised e)

/-- The dwell between poll cycles in `async_run`: 15 iterations of an
`is_connected` probe followed by `await asyncio.sleep(2)`. -/
def dwellEvents : List Ev := List.replicate 15 (Ev.evSleep 2)

/-- One iteration of the `while self._loop` body of `EmberMug.async_run`:
ensure connected, run `update_all` (its returned success flag is
DISCARDED), invoke the update callback unconditionally, then dwell.
A raised exception aborts the iteration, carrying the partial state. -/
def loopIter (st : MugState) (env : SessionEnv) :
    Option (MugState × List Ev × Option PyError) :=
  let pre : Option (List Ev) :=
    if env.is_connected then some []
    else connectRounds env.connectFuel env.attempt
  match pre with
  | none => none
  | some evs1 =>
      match update_all st { env with is_connected := true } with
      | none => none
      | some (st', evsU, .raised e) => some (st', evs1 ++ evsU, some e)
      | some (st', evsU, .ret _) =>
          some (st', evs1 ++ evsU ++ [.evCallback] ++ dwellEvents, none)

/-- The `while self._loop` loop of `async_run`, with `fuel` bounding the
number of iterations, `envs k` the world at iteration `k`, and `flag k`
the value of `self._loop` when iteration `k`'s condition is checked.
`none` is divergence; otherwise the final state, events, and the exception
that escaped the loop body, if any. -/
def sessionLoop : Nat → Nat → MugState → (Nat → SessionEnv) → (Nat → Bool) →
    Option (MugState × List Ev × Option PyError)
  | 0, _, _, _, _ => none
  | fuel + 1, k, st, envs, flag =>
      if flag k then
        match loopIter st (envs k) with
        | none => none
        | some (st', evs, some e) => some (st', evs, some e)
        | some (st', evs, none) =>
            match sessionLoop fuel (k + 1) st' envs flag with
            | none => none
            | some (st'', evs', r) => some (st'', evs ++ evs', r)
      else some (st, [], none)

/-- `EmberMug.async_run`: the whole loop inside `try`; `except Exception`
logs and schedules a fresh `async_run` task (`evCreateTask`); the returned
Bool records whether a restart task was scheduled. -/
def async_run (fuel : Nat) (st : MugState) (envs : Nat → SessionEnv)
    (flag : Nat → Bool) : Option (MugState × List Ev × Bool) :=
  match sessionLoop fuel 0 st envs flag with
  | none => none
  | some (st', evs, none) => some (st', evs, false)
  | some (st', evs, some _) => some (st', evs ++ [.evCreateTask], true)

/-- Composition of `async_run` with the task it schedules on failure: the
restarted generation runs `async_run` again on the same object state in a
fresh world (`envs2`, `flag2`). -/
def runWithRestart (fuel1 fuel2 : Nat) (st : MugState)
    (envs1 envs2 : Nat → SessionEnv) (flag1 flag2 : Nat → Bool) :
    Option (MugState × List Ev × Bool) :=
  match async_run fuel1 st envs1 flag1 with
  | none => none
  | some (st', evs, false) => some (st', evs, false)
  | some (st', evs, true) =>
      match async_run fuel2 st' envs2 flag2 with
      | none => none
      | some (st'', evs', r) => some (st'', evs ++ evs', r)

/-- Read environment returning fixed results for the four polled
characteristics (the state characteristic is never read by `update_all`). -/
def mkReads (c cur t bat : ReadResult) : UUID → ReadResult :=
  fun u =>
    match u with
    | .led_colour => c
    | .current_temp => cur
    | .target_temp => t
    | .battery => bat
    | .state => .bleakErr

/-! ### Shared concrete states and environments -/

/-- Reads where all four polled characteristics succeed with well-formed
payloads. -/
def goodReads : UUID → ReadResult :=
  mkReads (.ok [1, 2, 3, 4]) (.ok [100, 0]) (.ok [16, 0]) (.ok [80])

/-- Connected environment with all reads succeeding. -/
def envGood : SessionEnv := ⟨true, fun _ => .success, 0, goodReads⟩

/-- Connected environment where every read fails with a transport error. -/
def envAllBleak : SessionEnv :=
  ⟨true, fun _ => .success, 0, mkReads .bleakErr .bleakErr .bleakErr .bleakErr⟩

/-- Connected environment whose colour read returns only three bytes
(raising `ValueError` inside `update_led_colour`). -/
def envColor3 : SessionEnv :=
  ⟨true, fun _ => .success, 0,
    mkReads (.ok [255, 0, 128]) (.ok [100, 0]) (.ok [16, 0]) (.ok [80])⟩

/-- The device state after one successful poll from `initState true` under
`goodReads`. -/
def stGood : MugState where
  state := none
  led_colour_rgb := [1, 2, 3]
  current_temp := some (temp_from_bytes true [100, 0])
  target_temp := some (temp_from_bytes true [16, 0])
  battery := some (round2 ((80 : ℕ) : ℚ))
  available := false
  use_metric := true

/-! ### Codec lemmas -/

lemma roundHalfEven_intCast (n : ℤ) : roundHalfEven (n : ℚ) = n := by
  norm_num [roundHalfEven]

lemma roundHalfEven_natCast (n : ℕ) : roundHalfEven (n : ℚ) = (n : ℤ) := by
  simpa using roundHalfEven_intCast (n : ℤ)

lemma temp_from_bytes_metric (bytes : List Nat) :
    temp_from_bytes true bytes = (bytesToNatLE bytes : ℚ) / 100 := by
  have h : ((bytesToNatLE bytes : ℕ) : ℚ) * (1/100) * 100 = ((bytesToNatLE bytes : ℕ) : ℚ) := by
    ring
  simp [temp_from_bytes, round2, h, roundHalfEven_natCast]

lemma pyInt_natCast (n : ℕ) : pyInt (n : ℚ) = (n : ℤ) := by
  simp [pyInt]

lemma bytesToNatLE_pair (b0 b1 : Nat) : bytesToNatLE [b0, b1] = b0 + 256 * b1 := by
  simp [bytesToNatLE]

/-! ### C7 -/

/-- C7: for every valid 2-byte little-endian input, decoding under the
metric flag, re-encoding via `set_target_temp`'s payload construction and
decoding again reproduces the original value — in fact exactly, hence
within the claimed 0.01 tolerance. -/
theorem temp_roundtrip (b0 b1 : Nat) (h0 : b0 < 256) (h1 : b1 < 256) :
    ∃ enc,
      set_target_temp (temp_from_bytes true [b0, b1]) = Except.ok enc ∧
      temp_from_bytes true enc = temp_from_bytes true [b0, b1] ∧
      |temp_from_bytes true enc - temp_from_bytes true [b0, b1]| ≤ 1/100 := by
  have hdec : temp_from_bytes true [b0, b1] = ((b0 + 256 * b1 : ℕ) : ℚ) / 100 := by
    rw [temp_from_bytes_metric, bytesToNatLE_pair]
  have hdiv : ((b0 + 256 * b1 : ℕ) : ℚ) / 100 / (1/100) = ((b0 + 256 * b1 : ℕ) : ℚ) := by
    rw [div_div]
    norm_num
  have henc : set_target_temp (temp_from_bytes true [b0, b1]) =
      Except.ok [(b0 + 256 * b1) % 256, (b0 + 256 * b1) / 256] := by
    rw [hdec]
    unfold set_target_temp
    rw [hdiv, pyInt_natCast]
    unfold toBytes2LE
    rw [if_pos ⟨Int.natCast_nonneg _, by exact_mod_cast (by omega : b0 + 256 * b1 ≤ 65535)⟩]
    rw [Int.toNat_natCast]
  have hdec2 : temp_from_bytes true [(b0 + 256 * b1) % 256, (b0 + 256 * b1) / 256] =
      ((b0 + 256 * b1 : ℕ) : ℚ) / 100 := by
    rw [temp_from_bytes_metric, bytesToNatLE_pair, Nat.mod_add_div]
  refine ⟨[(b0 + 256 * b1) % 256, (b0 + 256 * b1) / 256], henc, ?_, ?_⟩
  · rw [hdec2, hdec]
  · rw [hdec2, hdec]
    simp

/-- Witness for C7 at the concrete payload `[0x64, 0x00]`. -/
theorem temp_roundtrip_witness :
    ∃ enc,
      set_target_temp (temp_from_bytes true [100, 0]) = Except.ok enc ∧
      temp_from_bytes true enc = temp_from_bytes true [100, 0] ∧
      |temp_from_bytes true enc - temp_from_bytes true [100, 0]| ≤ 1/100 :=
  temp_roundtrip 100 0 (by decide) (by decide)

/-! ### C8 -/

/-- C8 counterexample: at `temp = 0.019` the rounded raw value would be
`round(1.9) = 2`, but the code truncates (`int(temp / 0.01)`) and emits the
bytes of raw value 1. -/
theorem set_target_temp_trunc_cex :
    set_target_temp (19/1000) = Except.ok [1, 0] ∧
    roundHalfEven ((19/1000 : ℚ) / (1/100)) = 2 ∧
    bytesToNatLE [1, 0] = 1 ∧ (1 : ℤ) ≠ 2 := by
  refine ⟨?_, ?_, by simp [bytesToNatLE], by norm_num⟩
  · norm_num [set_target_temp, toBytes2LE, pyInt]
  · norm_num [roundHalfEven]

/-- C8 amended: the encoder computes `raw = int(value / 0.01)` (truncation
toward zero, not rounding), emits it as two little-endian unsigned bytes,
and fails (Python `OverflowError`) exactly when `raw < 0` or `raw > 65535`. -/
theorem set_target_temp_spec (temp : ℚ) :
    (0 ≤ pyInt (temp / (1/100)) ∧ pyInt (temp / (1/100)) ≤ 65535 →
      set_target_temp temp =
        Except.ok [(pyInt (temp / (1/100))).toNat % 256,
                   (pyInt (temp / (1/100))).toNat / 256]) ∧
    (pyInt (temp / (1/100)) < 0 ∨ 65535 < pyInt (temp / (1/100)) →
      set_target_temp temp = Except.error "OverflowError") := by
  unfold set_target_temp toBytes2LE
  constructor
  · intro h
    rw [if_pos h]
  · intro h
    rw [if_neg (by omega)]

/-- Witness for C8's amended statement at `temp = 1` (raw 100). -/
theorem set_target_temp_spec_witness : set_target_temp 1 = Except.ok [100, 0] := by
  have hp : pyInt ((1 : ℚ) / (1/100)) = 100 := by norm_num [pyInt]
  have h := (set_target_temp_spec 1).1
  rw [hp] at h
  simpa using h (by norm_num)

/-! ### C9 -/

/-- C9 counterexample: a 3-byte colour payload does not decode to its three
bytes — the exact-4-tuple unpacking in `update_led_colour` raises
`ValueError` (which is not even the transport-error class the poll cycle
catches). -/
theorem decode_color_three_bytes_cex :
    update_led_colour (initState true)
        (mkReads (.ok [255, 0, 128]) .bleakErr .bleakErr .bleakErr) =
      (initState true, some PyError.valueError) ∧
    PyError.valueError ≠ PyError.bleakError :=
  ⟨rfl, by decide⟩

/-- C9 amended: colour decoding unpacks exactly four payload bytes, keeping
the first three and discarding the fourth; a payload of any other length
(including 3 bytes) raises `ValueError`; hex formatting yields lowercase
zero-padded `#rrggbb`, so the 4-byte payload `[0xFF, 0x00, 0x80, 0x00]`
decodes to `(255, 0, 128)` and formats as `"#ff0080"`. -/
theorem decode_color_spec :
    (∀ (st : MugState) (reads : UUID → ReadResult) (r g b a : Nat),
        reads .led_colour = .ok [r, g, b, a] →
        update_led_colour st reads = ({ st with led_colour_rgb := [r, g, b] }, none)) ∧
    (∀ (st : MugState) (reads : UUID → ReadResult) (p : List Nat),
        reads .led_colour = .ok p → p.length ≠ 4 →
        update_led_colour st reads = (st, some PyError.valueError)) ∧
    colour [255, 0, 128] = some "#ff0080" ∧
    update_led_colour (initState true)
        (mkReads (.ok [255, 0, 128, 0]) .bleakErr .bleakErr .bleakErr) =
      ({ initState true with led_colour_rgb := [255, 0, 128] }, none) := by
  refine ⟨?_, ?_, by decide, rfl⟩
  · intro st reads r g b a h
    unfold update_led_colour
    rw [h]
  · intro st reads p h hlen
    unfold update_led_colour
    rw [h]
    rcases p with _ | ⟨x, _ | ⟨y, _ | ⟨z, _ | ⟨w, _ | ⟨v, rest⟩⟩⟩⟩⟩ <;>
      first
        | rfl
        | simp at hlen

/-- Witness for C9's amended statement at the 4-byte and 3-byte payloads. -/
theorem decode_color_spec_witness :
    update_led_colour (initState false)
        (mkReads (.ok [9, 8, 7, 6]) .bleakErr .bleakErr .bleakErr) =
      ({ initState false with led_colour_rgb := [9, 8, 7] }, none) ∧
    update_led_colour (initState false)
        (mkReads (.ok [9, 8]) .bleakErr .bleakErr .bleakErr) =
      (initState false, some PyError.valueError) :=
  ⟨decode_color_spec.1 (initState false) _ 9 8 7 6 rfl,
   decode_color_spec.2.1 (initState false) _ [9, 8] rfl (by decide)⟩

/-! ### C3 -/

/-- C3: the notification handler stores the first payload byte as the new
status exactly when that byte is neither 1 nor the current status, logging
the change; otherwise the status is left unchanged.  In particular, from
status 3: byte 1 keeps 3, byte 3 keeps 3, byte 5 stores 5. -/
theorem state_notify_update_iff (c : Option Nat) (b : Nat) (rest : List Nat) :
    (b ≠ 1 ∧ some b ≠ c →
      state_notify c (b :: rest) = some (some b, [Ev.evLogStateChange c b])) ∧
    (b = 1 ∨ some b = c → state_notify c (b :: rest) = some (c, [])) ∧
    state_notify (some 3) (1 :: rest) = some (some 3, []) ∧
    state_notify (some 3) (3 :: rest) = some (some 3, []) ∧
    state_notify (some 3) (5 :: rest) = some (some 5, [Ev.evLogStateChange (some 3) 5]) := by
  refine ⟨?_, ?_, ?_, ?_, ?_⟩
  · intro h
    simp [state_notify, h]
  · intro h
    have hn : ¬(b ≠ 1 ∧ some b ≠ c) := by tauto
    simp only [state_notify, if_neg hn]
  · simp [state_notify]
  · simp [state_notify]
  · simp [state_notify]

/-- Witness for C3 at current status 3 and notification byte 5. -/
theorem state_notify_update_iff_witness :
    state_notify (some 3) [5] = some (some 5, [Ev.evLogStateChange (some 3) 5]) :=
  (state_notify_update_iff (some 3) 5 []).1 (by decide)

/-! ### C2 -/

/-- C2: the poll cycle runs the reads in the fixed source order (colour,
current temperature, target temperature, battery); whichever of the four
reads fails with a transport error, the remainder of the cycle is skipped,
the cycle returns `success = false`, and the updates already applied by
the reads that succeeded before the failure are all kept (conjuncts cover
a failure at each of the four positions, with the results of the never-
reached reads arbitrary). -/
theorem update_all_partial_failure (st : MugState) (r g b a : Nat)
    (ct tt : List Nat) (r2 r3 r4 : ReadResult) (att : Nat → Outcome) (fuel : Nat) :
    update_attrs = [Attr.led_colour, Attr.current_temp, Attr.target_temp, Attr.battery] ∧
    update_all st ⟨true, att, fuel, mkReads .bleakErr r2 r3 r4⟩ =
      some (st, [], UpdateAllResult.ret false) ∧
    update_all st ⟨true, att, fuel, mkReads (.ok [r, g, b, a]) .bleakErr r3 r4⟩ =
      some ({ st with led_colour_rgb := [r, g, b] }, [],
            UpdateAllResult.ret false) ∧
    update_all st ⟨true, att, fuel, mkReads (.ok [r, g, b, a]) (.ok ct) .bleakErr r4⟩ =
      some ({ st with led_colour_rgb := [r, g, b],
                      current_temp := some (temp_from_bytes st.use_metric ct) }, [],
            UpdateAllResult.ret false) ∧
    update_all st ⟨true, att, fuel, mkReads (.ok [r, g, b, a]) (.ok ct) (.ok tt) .bleakErr⟩ =
      some ({ st with led_colour_rgb := [r, g, b],
                      current_temp := some (temp_from_bytes st.use_metric ct),
                      target_temp := some (temp_from_bytes st.use_metric tt) }, [],
            UpdateAllResult.ret false) :=
  ⟨rfl, rfl, rfl, rfl, rfl⟩

/-! ### C6 helper lemmas -/

lemma updateAttr_available (a : Attr) (st : MugState) (reads : UUID → ReadResult) :
    (updateAttr a st reads).1.available = st.available := by
  cases a <;>
    simp only [updateAttr, update_led_colour, update_current_temp, update_target_temp,
      update_battery] <;>
    split <;> rfl

lemma runAttrs_available (l : List Attr) (st : MugState) (reads : UUID → ReadResult) :
    (runAttrs l st reads).1.available = st.available := by
  induction l generalizing st with
  | nil => rfl
  | cons a rest ih =>
      unfold runAttrs
      rcases h : updateAttr a st reads with ⟨st', e⟩
      have hp : st'.available = st.available := by
        have hh := updateAttr_available a st reads
        rw [h] at hh
        exact hh
      cases e with
      | none => exact (ih st').trans hp
      | some e' => exact hp

lemma update_all_state (st : MugState) (env : SessionEnv)
    (r : MugState × List Ev × UpdateAllResult) (h : update_all st env = some r) :
    r.1 = (runAttrs update_attrs st env.reads).1 := by
  unfold update_all at h
  rcases hpre : (if env.is_connected then some [] else
      connectRounds env.connectFuel env.attempt) with _ | evs <;> rw [hpre] at h
  · cases h
  · rcases hr : runAttrs update_attrs st env.reads with ⟨st', e⟩
    rw [hr] at h
    cases e with
    | none =>
        cases h
        rfl
    | some e' =>
        cases e' <;> (cases h; rfl)

lemma update_all_available (st : MugState) (env : SessionEnv)
    (r : MugState × List Ev × UpdateAllResult) (h : update_all st env = some r) :
    r.1.available = st.available := by
  rw [update_all_state st env r h]
  exact runAttrs_available _ _ _

lemma loopIter_available (st : MugState) (env : SessionEnv)
    (r : MugState × List Ev × Option PyError) (h : loopIter st env = some r) :
    r.1.available = st.available := by
  unfold loopIter at h
  rcases hpre : (if env.is_connected then some [] else
      connectRounds env.connectFuel env.attempt) with _ | evs1 <;> rw [hpre] at h
  · cases h
  · rcases hu : update_all st { env with is_connected := true } with _ | ⟨st', evsU, res⟩ <;>
      rw [hu] at h
    · cases h
    · have hav := update_all_available _ _ _ hu
      cases res with
      | raised e => cases h; exact hav
      | ret s => cases h; exact hav

lemma sessionLoop_available (fuel : Nat) :
    ∀ (k : Nat) (st : MugState) (envs : Nat → SessionEnv) (flag : Nat → Bool)
      (r : MugState × List Ev × Option PyError),
      sessionLoop fuel k st envs flag = some r → r.1.available = st.available := by
  induction fuel with
  | zero => intro k st envs flag r h; cases h
  | succ fuel ih =>
      intro k st envs flag r h
      unfold sessionLoop at h
      by_cases hf : flag k
      · rw [if_pos hf] at h
        split at h
        · cases h
        · rename_i st' evs e hit
          cases h
          exact loopIter_available _ _ _ hit
        · rename_i st' evs hit
          split at h
          · cases h
          · rename_i st'' evs' rr hs
            cases h
            exact (ih (k + 1) st' envs flag _ hs).trans (loopIter_available _ _ _ hit)
      · rw [if_neg hf] at h
        cases h
        rfl

/-! ### C6 -/

/-- C6 counterexample: a fully successful poll cycle starting from the
freshly constructed state still leaves `available = false` — the claim
that it becomes true after a successful poll fails on this code. -/
theorem available_after_success_cex :
    update_all (initState true) envGood = some (stGood, [], UpdateAllResult.ret true) ∧
    stGood.available = false ∧ (initState true).available = false :=
  ⟨rfl, rfl, rfl⟩

/-- C6 amended: `available` is false at construction and is never modified
by any session operation (poll cycle, loop iteration, or the whole loop);
in this code it never becomes true. -/
theorem available_invariant (m : Bool) :
    (initState m).available = false ∧
    (∀ st env r, update_all st env = some r → r.1.available = st.available) ∧
    (∀ st env r, loopIter st env = some r → r.1.available = st.available) ∧
    (∀ fuel k st envs flag r, sessionLoop fuel k st envs flag = some r →
        r.1.available = st.available) :=
  ⟨rfl, fun st env r h => update_all_available st env r h,
   fun st env r h => loopIter_available st env r h,
   fun fuel k st envs flag r h => sessionLoop_available fuel k st envs flag r h⟩

/-- Witness for C6's amended statement: a concrete successful poll keeps
`available` unchanged. -/
theorem available_invariant_witness :
    (initState true).available = false ∧ stGood.available = (initState true).available :=
  ⟨(available_invariant true).1,
   (available_invariant true).2.1 (initState true) envGood
     (stGood, [], UpdateAllResult.ret true) rfl⟩

/-! ### C5 -/

/-- C5 counterexample: with every read failing, the poll cycle reports
`success = false`, yet the loop body still invokes the external callback;
and an applied notification-driven status change emits no callback. -/
theorem callback_on_failure_cex :
    update_all (initState true) envAllBleak =
      some (initState true, [], UpdateAllResult.ret false) ∧
    loopIter (initState true) envAllBleak =
      some (initState true, Ev.evCallback :: dwellEvents, none) ∧
    Ev.evCallback ∈ Ev.evCallback :: dwellEvents ∧
    state_notify none [5] = some (some 5, [Ev.evLogStateChange none 5]) ∧
    Ev.evCallback ∉ [Ev.evLogStateChange none 5] :=
  ⟨rfl, rfl, by decide, by decide, by decide⟩

/-- C5 amended: in a connected loop iteration the external callback is
invoked exactly once, after `update_all`, regardless of whether the poll
reported success or failure (the source discards the flag); the
notification handler never invokes the callback. -/
theorem callback_every_cycle (st : MugState) (env : SessionEnv)
    (h : env.is_connected = true) :
    (∀ st' evs s, update_all st env = some (st', evs, UpdateAllResult.ret s) →
        loopIter st env = some (st', Ev.evCallback :: dwellEvents, none) ∧
        (Ev.evCallback :: dwellEvents).count Ev.evCallback = 1) ∧
    (∀ c data res, state_notify c data = some res → Ev.evCallback ∉ res.2) := by
  have henv : { env with is_connected := true } = env := by
    cases env with
    | mk ic att fuel reads =>
        have hic : ic = true := h
        rw [hic]
  constructor
  · intro st' evs s hu
    have hevs : evs = [] := by
      unfold update_all at hu
      rw [if_pos h] at hu
      rcases hr : runAttrs update_attrs st env.reads with ⟨st2, e⟩
      rw [hr] at hu
      cases e with
      | none => cases hu; rfl
      | some e' =>
          cases e'
          · cases hu
            rfl
          · cases hu
          · cases hu
    refine ⟨?_, by decide⟩
    unfold loopIter
    rw [if_pos h, henv, hu, hevs]
    rfl
  · intro c data res hsn
    cases data with
    | nil => cases hsn
    | cons b rest =>
        simp only [state_notify] at hsn
        by_cases hc : b ≠ 1 ∧ some b ≠ c
        · rw [if_pos hc] at hsn
          cases hsn
          simp
        · rw [if_neg hc] at hsn
          cases hsn
          simp

/-- Witness for C5's amended statement at a failing poll. -/
theorem callback_every_cycle_witness :
    loopIter (initState true) envAllBleak =
      some (initState true, Ev.evCallback :: dwellEvents, none) ∧
    (Ev.evCallback :: dwellEvents).count Ev.evCallback = 1 :=
  (callback_every_cycle (initState true) envAllBleak rfl).1 (initState true) [] false rfl

/-! ### Counting lemmas for the connect burst -/

lemma connectIter_count_connect (o : Outcome) :
    (connectIter o).1.count Ev.evClientConnect = 1 := by
  cases o <;> decide

lemma connectIter_count_pair (o : Outcome) (h : o ≠ Outcome.connectFail) :
    (connectIter o).1.count Ev.evClientPair = 1 := by
  cases o
  · exact absurd rfl h
  · decide
  · decide

lemma connectIter_count_sleepNA (o : Outcome) (h : o ≠ Outcome.success) :
    (connectIter o).1.count (Ev.evSleepNotAwaited 30) = 1 := by
  cases o
  · decide
  · decide
  · exact absurd rfl h

lemma connectIter_elapsed (o : Outcome) : elapsedSeconds (connectIter o).1 = 0 := by
  cases o <;> decide

lemma elapsedSeconds_append (l1 l2 : List Ev) :
    elapsedSeconds (l1 ++ l2) = elapsedSeconds l1 + elapsedSeconds l2 := by
  simp [elapsedSeconds]

lemma count_flatten_connect (outs : List Outcome) :
    ((outs.map (fun o => (connectIter o).1)).flatten).count Ev.evClientConnect =
      outs.length := by
  induction outs with
  | nil => rfl
  | cons o rest ih =>
      rw [List.map_cons, List.flatten_cons, List.count_append, connectIter_count_connect,
        ih, List.length_cons]
      omega

lemma count_flatten_pair (outs : List Outcome) (h : ∀ o ∈ outs, o ≠ Outcome.connectFail) :
    ((outs.map (fun o => (connectIter o).1)).flatten).count Ev.evClientPair =
      outs.length := by
  induction outs with
  | nil => rfl
  | cons o rest ih =>
      rw [List.map_cons, List.flatten_cons, List.count_append,
        connectIter_count_pair o (h o (List.mem_cons_self o rest)),
        ih (fun o' ho' => h o' (List.mem_cons_of_mem _ ho')), List.length_cons]
      omega

lemma count_flatten_sleepNA (outs : List Outcome) (h : ∀ o ∈ outs, o ≠ Outcome.success) :
    ((outs.map (fun o => (connectIter o).1)).flatten).count (Ev.evSleepNotAwaited 30) =
      outs.length := by
  induction outs with
  | nil => rfl
  | cons o rest ih =>
      rw [List.map_cons, List.flatten_cons, List.count_append,
        connectIter_count_sleepNA o (h o (List.mem_cons_self o rest)),
        ih (fun o' ho' => h o' (List.mem_cons_of_mem _ ho')), List.length_cons]
      omega

lemma elapsed_flatten (outs : List Outcome) :
    elapsedSeconds ((outs.map (fun o => (connectIter o).1)).flatten) = 0 := by
  induction outs with
  | nil => rfl
  | cons o rest ih =>
      rw [List.map_cons, List.flatten_cons, elapsedSeconds_append, connectIter_elapsed, ih]

lemma mem_burstOutcomes {attempt : Nat → Outcome} {o : Outcome}
    (ho : o ∈ burstOutcomes attempt) : ∃ i, i < 10 ∧ attempt i = o := by
  simp only [burstOutcomes, List.mem_map, List.mem_range] at ho
  obtain ⟨i, hi, hv⟩ := ho
  exact ⟨i, hi, hv⟩

lemma burstOutcomes_length (attempt : Nat → Outcome) :
    (burstOutcomes attempt).length = 10 := by
  simp [burstOutcomes]

/-! ### C10 -/

/-- C10: within one `connect()` call the retry loop never exits early — a
successful connect+pair attempt only records the `connected` flag and
`continue`s, so `client.connect()` is invoked on all 10 iterations
whatever the outcomes, `client.pair()` is invoked on every iteration whose
connect call succeeded, and the flag is set exactly when some attempt
succeeded. -/
theorem connect_no_early_exit (attempt : Nat → Outcome) :
    (connectBurstEvents attempt).count Ev.evClientConnect = 10 ∧
    ((∀ i, i < 10 → attempt i ≠ Outcome.connectFail) →
      (connectBurstEvents attempt).count Ev.evClientPair = 10) ∧
    (connectBurstConnected attempt = true ↔ ∃ i, i < 10 ∧ attempt i = Outcome.success) := by
  refine ⟨?_, ?_, ?_⟩
  · rw [connectBurstEvents, count_flatten_connect, burstOutcomes_length]
  · intro h
    rw [connectBurstEvents, count_flatten_pair _ ?_, burstOutcomes_length]
    intro o ho
    obtain ⟨i, hi, hv⟩ := mem_burstOutcomes ho
    exact hv ▸ h i hi
  · simp [connectBurstConnected, burstOutcomes, List.mem_map, List.mem_range]

/-- Witness for C10: with every attempt succeeding, connect and pair are
still each invoked 10 times. -/
theorem connect_no_early_exit_witness :
    (connectBurstEvents (fun _ => Outcome.success)).count Ev.evClientConnect = 10 ∧
    (connectBurstEvents (fun _ => Outcome.success)).count Ev.evClientPair = 10 :=
  ⟨(connect_no_early_exit (fun _ => Outcome.success)).1,
   (connect_no_early_exit (fun _ => Outcome.success)).2.1 (fun _ _ => by decide)⟩

/-! ### C1 -/

/-- C1 (actual code behaviour when every attempt fails): the burst makes
exactly 10 connect attempts and raises nothing, then the callback is
signalled, a 5-minute awaited sleep happens and the burst restarts
(unbounded outer retry) — but the total awaited suspension inside the
burst is 0 seconds: each failed attempt only creates an un-awaited
`asyncio.sleep(30)` coroutine, so the claimed 30-second waits never
happen. -/
theorem connect_all_fail_behavior (attempt : Nat → Outcome)
    (h : ∀ i, i < 10 → attempt i ≠ Outcome.success) :
    (connectBurstEvents attempt).count Ev.evClientConnect = 10 ∧
    elapsedSeconds (connectBurstEvents attempt) = 0 ∧
    (connectBurstEvents attempt).count (Ev.evSleepNotAwaited 30) = 10 ∧
    connectBurstConnected attempt = false ∧
    (∀ fuel, connectRounds (fuel + 1) attempt =
        Option.map
          (fun rest => connectBurstEvents attempt ++
            [Ev.evCallback, Ev.evSleep 300] ++ rest ++ [Ev.evStartNotify])
          (connectRounds fuel (fun n => attempt (n + 10)))) := by
  have hns : ∀ o ∈ burstOutcomes attempt, o ≠ Outcome.success := by
    intro o ho hq
    obtain ⟨i, hi, hv⟩ := mem_burstOutcomes ho
    exact h i hi (hq ▸ hv)
  have hconn : connectBurstConnected attempt = false := by
    rw [connectBurstConnected, decide_eq_false_iff_not]
    intro hmem
    exact hns _ hmem rfl
  refine ⟨?_, ?_, ?_, hconn, ?_⟩
  · rw [connectBurstEvents, count_flatten_connect, burstOutcomes_length]
  · rw [connectBurstEvents, elapsed_flatten]
  · rw [connectBurstEvents, count_flatten_sleepNA _ hns, burstOutcomes_length]
  · intro fuel
    have step : connectRounds (fuel + 1) attempt =
        match connectRounds fuel (fun n => attempt (n + 10)) with
        | none => none
        | some rest => some (connectBurstEvents attempt ++
            [Ev.evCallback, Ev.evSleep 300] ++ rest ++ [Ev.evStartNotify]) := by
      conv_lhs => rw [connectRounds]
      rw [hconn]
      simp
    rw [step]
    rcases connectRounds fuel (fun n => attempt (n + 10)) with _ | rest
    · rfl
    · rfl

/-- Witness for C1's behaviour theorem: all attempts failing on the
transport's connect call. -/
theorem connect_all_fail_behavior_witness :
    (connectBurstEvents (fun _ => Outcome.connectFail)).count Ev.evClientConnect = 10 ∧
    elapsedSeconds (connectBurstEvents (fun _ => Outcome.connectFail)) = 0 ∧
    (connectBurstEvents (fun _ => Outcome.connectFail)).count (Ev.evSleepNotAwaited 30) = 10 :=
  ⟨(connect_all_fail_behavior (fun _ => Outcome.connectFail)
      (fun _ _ h => Outcome.noConfusion h)).1,
   (connect_all_fail_behavior (fun _ => Outcome.connectFail)
      (fun _ _ h => Outcome.noConfusion h)).2.1,
   (connect_all_fail_behavior (fun _ => Outcome.connectFail)
      (fun _ _ h => Outcome.noConfusion h)).2.2.1⟩

/-! ### C4 -/

lemma sessionLoop_raise (fuel k : Nat) (st : MugState) (envs : Nat → SessionEnv)
    (flag : Nat → Bool) (st1 : MugState) (evs1 : List Ev) (e : PyError)
    (hf : flag k = true) (h1 : loopIter st (envs k) = some (st1, evs1, some e)) :
    sessionLoop (fuel + 1) k st envs flag = some (st1, evs1, some e) := by
  unfold sessionLoop
  rw [if_pos hf, h1]

lemma sessionLoop_one_then_stop (fuel k : Nat) (st : MugState) (envs : Nat → SessionEnv)
    (flag : Nat → Bool) (st2 : MugState) (evs2 : List Ev)
    (hf : flag k = true) (h1 : loopIter st (envs k) = some (st2, evs2, none))
    (hf2 : flag (k + 1) = false) :
    sessionLoop (fuel + 2) k st envs flag = some (st2, evs2 ++ [], none) := by
  have hs : sessionLoop (fuel + 1) (k + 1) st2 envs flag = some (st2, [], none) := by
    unfold sessionLoop
    rw [if_neg (by simp [hf2])]
  unfold sessionLoop
  rw [if_pos hf, h1]
  show (match sessionLoop (fuel + 1) (k + 1) st2 envs flag with
        | none => none
        | some (st'', evs', r) => some (st'', evs2 ++ evs', r)) =
      some (st2, evs2 ++ [], none)
  rw [hs]

/-- C4: an exception escaping the loop body is caught at the top of
`async_run`, which schedules a fresh `async_run` task instead of
propagating the error; composing with the scheduled task, the restarted
loop runs a new full iteration (new iteration observed) rather than the
task terminating. -/
theorem session_loop_restart (st st1 st2 : MugState) (env1 : SessionEnv)
    (envs2 : Nat → SessionEnv) (evs1 evs2 : List Ev) (e : PyError)
    (h1 : loopIter st env1 = some (st1, evs1, some e))
    (h2 : loopIter st1 (envs2 0) = some (st2, evs2, none)) :
    (∀ fuel1, async_run (fuel1 + 1) st (fun _ => env1) (fun _ => true) =
        some (st1, evs1 ++ [Ev.evCreateTask], true)) ∧
    runWithRestart 1 2 st (fun _ => env1) envs2 (fun _ => true) (fun k => decide (k = 0)) =
      some (st2, (evs1 ++ [Ev.evCreateTask]) ++ evs2, false) := by
  have hA : ∀ fuel1, async_run (fuel1 + 1) st (fun _ => env1) (fun _ => true) =
      some (st1, evs1 ++ [Ev.evCreateTask], true) := by
    intro fuel1
    unfold async_run
    rw [sessionLoop_raise fuel1 0 st (fun _ => env1) (fun _ => true) st1 evs1 e rfl h1]
  have hB : async_run 2 st1 envs2 (fun k => decide (k = 0)) =
      some (st2, evs2 ++ [], false) := by
    have hs2 : sessionLoop 2 0 st1 envs2 (fun k => decide (k = 0)) =
        some (st2, evs2 ++ [], none) :=
      sessionLoop_one_then_stop 0 0 st1 envs2 (fun k => decide (k = 0)) st2 evs2
        (by decide) h2 (by decide)
    unfold async_run
    rw [hs2]
  refine ⟨hA, ?_⟩
  have hfin : runWithRestart 1 2 st (fun _ => env1) envs2 (fun _ => true)
      (fun k => decide (k = 0)) = some (st2, (evs1 ++ [Ev.evCreateTask]) ++ (evs2 ++ []), false) := by
    simp only [runWithRestart, hA 0, hB]
  simpa using hfin

/-- Witness for C4: an injected `ValueError` (3-byte colour payload) in
generation one, then a clean full iteration in generation two. -/
theorem session_loop_restart_witness :
    runWithRestart 1 2 (initState true) (fun _ => envColor3) (fun _ => envGood)
      (fun _ => true) (fun k => decide (k = 0)) =
      some (stGood, ([] ++ [Ev.evCreateTask]) ++ (Ev.evCallback :: dwellEvents), false) :=
  (session_loop_restart (initState true) (initState true) stGood envColor3
    (fun _ => envGood) [] (Ev.evCallback :: dwellEvents) PyError.valueError rfl rfl).2

end EmberMug
